import Mathlib

/-!
Verification of the development-platforms-ca REST API core: a shallow
embedding of its route handlers, validation middleware and token service,
with theorems settling the specification's claims about them.

Conventions of the embedding:
* the MySQL users / articles tables become Lean lists of rows; a
  parameterized statement becomes a pure function from the list to the
  new list together with the driver's affectedRows count;
* an Express middleware becomes a function from the request to either a
  response (the middleware answered and the chain stops) or the possibly
  enriched request (it called next());
* external capabilities (bcrypt compare, the zod email regex) are
  abstracted as function parameters, so every theorem holds for any
  instantiation of them.
-/

namespace DevPlatformsCA

/-- interfaces.ts UserResponse: the shape returned to callers, without the
password digest. -/
structure UserResponse where
  id : Nat
  username : String
  email : String
deriving Repr, DecidableEq

/-- A row of the users table: id, username, email and the stored bcrypt
password digest. -/
structure UserRow where
  id : Nat
  username : String
  email : String
  password : String
deriving Repr, DecidableEq

/-- A row of the articles table (routes/articles.ts columns). -/
structure ArticleRow where
  id : Nat
  title : String
  body : String
  submitted_by : Nat
  category : Option String
deriving Repr, DecidableEq

/-- Modelled from the spec: src/utils/jwt.ts is not among the sources.
Token payload per spec section 3: subject id, issuedAt, expiresAt. -/
structure JwtPayload where
  sub : Nat
  issuedAt : Nat
  expiresAt : Nat
deriving Repr, DecidableEq

/-- Modelled from the spec: a signed token. The signature is abstracted as
a perfect MAC, i.e. the signing secret paired with the signed payload;
verification compares this field against the recomputation. -/
structure JwtToken where
  payload : JwtPayload
  sig : String × JwtPayload
deriving Repr, DecidableEq

/-- Spec section 4.1 AuthError taxonomy. -/
inductive AuthError where
  | Malformed
  | BadSignature
  | Expired
deriving Repr, DecidableEq

/-- Modelled from the spec: fixed token TTL ("fixed TTL, e.g. 24h ---
configurable constant"), in seconds. -/
def tokenTtl : Nat := 86400

/-- Modelled from the spec: src/utils/jwt.ts generateToken. Issues a
signed token embedding the subject id and expiry issuedAt + TTL. -/
def generateToken (secret : String) (subjectId now : Nat) : JwtToken :=
  let p : JwtPayload := ⟨subjectId, now, now + tokenTtl⟩
  ⟨p, (secret, p)⟩

/-- Modelled from the spec: src/utils/jwt.ts verify. Fails with
BadSignature when the MAC does not match, Expired when now > expiresAt,
and otherwise succeeds with the embedded subject id. (The Malformed case
is raised at bearer-parse time, before this function is reached.) -/
def verifyToken (secret : String) (t : JwtToken) (now : Nat) : Except AuthError Nat :=
  if t.sig ≠ (secret, t.payload) then .error .BadSignature
  else if t.payload.expiresAt < now then .error .Expired
  else .ok t.payload.sub

/-- JSON response bodies produced by the handlers under scrutiny. -/
inductive Body where
  | empty
  | err (error : String)
  | errDetails (error : String) (details : List String)
  | msg (message : String)
  | userObj (u : UserResponse)
  | userArr (us : List UserResponse)
  | userPatched (id : Nat) (username : Option String) (email : Option String)
  | articleObj (id : String) (title : String) (text : String) (submitted_by : Nat)
  | registered (message : String) (user : UserResponse)
  | loggedIn (message : String) (user : UserResponse) (token : JwtToken)
deriving Repr, DecidableEq

/-- An HTTP response: status code and JSON body. -/
structure Resp where
  status : Nat
  body : Body
deriving Repr, DecidableEq

/-- The authorization header as the auth middleware sees it: absent, a
bearer value that does not decode to a token, or a decoded token. -/
inductive BearerValue where
  | garbage
  | token (t : JwtToken)
deriving Repr, DecidableEq

/-- The request fields these routes consult. user? is attached by the
auth middleware (req.user). -/
structure Req where
  paramsId : String := ""
  username? : Option String := none
  email? : Option String := none
  password? : Option String := none
  title? : Option String := none
  text? : Option String := none
  authHeader : Option BearerValue := none
  user? : Option Nat := none
deriving Repr, DecidableEq

deriving instance DecidableEq for Except

/-- An Express middleware: answers with a response (halting the chain) or
passes the (possibly enriched) request on via next(). -/
def Middleware : Type := Req → Except Resp Req

/-- The Express chain semantics for the routes of this repository: run the
middlewares left to right; the first one that responds ends the request
with the store untouched; otherwise the handler runs on the store. -/
def runChain {σ : Type} (mws : List Middleware) (handler : Req → σ → Resp × σ)
    (req : Req) (store : σ) : Resp × σ :=
  match mws with
  | [] => handler req store
  | m :: rest =>
    match m req with
    | .error r => (r, store)
    | .ok req2 => runChain rest handler req2 store

/-- Modelled from the spec: src/middleware/auth-validation.ts
authenticateToken is not among the sources. Per spec section 4.3: absent
bearer token rejects 401 "Unauthorized"; any AuthError from verify also
rejects 401 without distinguishing the subtype; on success the subject id
is attached as req.user. -/
def authenticateToken (secret : String) (now : Nat) : Middleware := fun req =>
  match req.authHeader with
  | none => .error ⟨401, .err "Unauthorized"⟩
  | some .garbage => .error ⟨401, .err "Unauthorized"⟩
  | some (.token t) =>
    match verifyToken secret t now with
    | .error _ => .error ⟨401, .err "Unauthorized"⟩
    | .ok sub => .ok { req with user? := some sub }

/-- Number(req.params.id) restricted to the all-digit strings guaranteed
by the preceding id validator: the decimal value of the digits. -/
def toNatDigits (s : String) : Nat :=
  s.toList.foldl (fun a c => a * 10 + (c.toNat - 48)) 0

/-- routes/users.ts DELETE /users/:id handler body: run
DELETE FROM users WHERE id = ?, then check affectedRows > 0 (respond 200),
then affectedRows === 0 (respond 404), with a trailing 204 after both. -/
def usersDeleteHandler (req : Req) (store : List UserRow) : Resp × List UserRow :=
  let userId := toNatDigits req.paramsId
  let affected := (store.filter (fun u => u.id == userId)).length
  let store2 := store.filter (fun u => !(u.id == userId))
  if affected > 0 then (⟨200, .msg "User deleted successfully"⟩, store2)
  else if affected = 0 then (⟨404, .err "User not found"⟩, store2)
  else (⟨204, .empty⟩, store2)

/-- user-validation.ts userIdSchema: z.string().regex(/^\d+$/,
"ID must be a positive number") --- a nonempty all-digit string. -/
def matchesIdRegex (s : String) : Bool :=
  !s.toList.isEmpty && s.toList.all Char.isDigit

/-- user-validation.ts validateUserId (zod variant): safeParse the id
against userIdSchema; on failure respond 404 with the issue messages,
else next(). -/
def validateUserIdZod : Middleware := fun req =>
  if matchesIdRegex req.paramsId then .ok req
  else .error ⟨404, .errDetails "Validation failed" ["ID must be a positive number"]⟩

/-- The issue messages zod raises for the username field of
requiredUserDataSchema: wrong type or absent yields the custom string
message, otherwise min-2 / max-50 length issues. -/
def usernameIssues (u? : Option String) : List String :=
  match u? with
  | none => ["Username must be a string"]
  | some u =>
    (if u.length < 2 then ["Username must be at least 2 characters"] else []) ++
    (if 50 < u.length then ["Username must not exceed 50 characters"] else [])

/-- The issue messages zod raises for the email field: z.email with the
custom message. The email regex itself is external zod behavior,
abstracted as the parameter emailOk. -/
def emailIssues (emailOk : String → Bool) (e? : Option String) : List String :=
  match e? with
  | none => ["Email must be a valid email"]
  | some e => if emailOk e then [] else ["Email must be a valid email"]

/-- user-validation.ts validateRequiredUserData (zod variant): safeParse
req.body against requiredUserDataSchema; on failure respond 400 with all
issue messages in field order, else next(). -/
def validateRequiredUserData (emailOk : String → Bool) : Middleware := fun req =>
  match usernameIssues req.username? ++ emailIssues emailOk req.email? with
  | [] => .ok req
  | issues => .error ⟨400, .errDetails "Validation failed" issues⟩

/-- Username issues for partialUserDataSchema, where the field is
.optional(): an absent username raises no issue. -/
def usernameIssuesOpt (u? : Option String) : List String :=
  match u? with
  | none => []
  | some u =>
    (if u.length < 2 then ["Username must be at least 2 characters"] else []) ++
    (if 50 < u.length then ["Username must not exceed 50 characters"] else [])

/-- Email issues for partialUserDataSchema, where the field is
.optional(): an absent email raises no issue. -/
def emailIssuesOpt (emailOk : String → Bool) (e? : Option String) : List String :=
  match e? with
  | none => []
  | some e => if emailOk e then [] else ["Email must be a valid email"]

/-- user-validation.ts validatePartialUserData (zod variant): safeParse
req.body against partialUserDataSchema (both fields optional); on failure
respond 400 with the issue messages, else next(). -/
def validatePartialUserData (emailOk : String → Bool) : Middleware := fun req =>
  match usernameIssuesOpt req.username? ++ emailIssuesOpt emailOk req.email? with
  | [] => .ok req
  | issues => .error ⟨400, .errDetails "Validation failed" issues⟩

/-- The whitespace characters the ECMAScript ToNumber conversion strips
from both ends of a string (tab, LF, VT, FF, CR, space, NBSP, line and
paragraph separators, BOM). -/
def jsWs (c : Char) : Bool :=
  c = '\t' || c = '\n' || c = Char.ofNat 11 || c = Char.ofNat 12 || c = '\r' ||
  c = ' ' || c = Char.ofNat 160 || c = Char.ofNat 0x2028 || c = Char.ofNat 0x2029 ||
  c = Char.ofNat 0xFEFF

/-- The characters of a string after ECMAScript whitespace trimming. -/
def trimJs (s : String) : List Char :=
  ((s.toList.dropWhile jsWs).reverse.dropWhile jsWs).reverse

/-- A nonempty run of decimal digits. -/
def decDigitsNE (l : List Char) : Bool := !l.isEmpty && l.all Char.isDigit

/-- A nonempty run of hexadecimal digits. -/
def hexDigitsNE (l : List Char) : Bool :=
  !l.isEmpty && l.all (fun c => c.isDigit || ('a' ≤ c && c ≤ 'f') || ('A' ≤ c && c ≤ 'F'))

/-- A nonempty run of octal digits. -/
def octDigitsNE (l : List Char) : Bool := !l.isEmpty && l.all (fun c => '0' ≤ c && c ≤ '7')

/-- A nonempty run of binary digits. -/
def binDigitsNE (l : List Char) : Bool := !l.isEmpty && l.all (fun c => c = '0' || c = '1')

/-- An optional ECMAScript ExponentPart: empty, or e/E, an optional sign
and a nonempty digit run. -/
def expOk (l : List Char) : Bool :=
  match l with
  | [] => true
  | c :: r =>
    (c = 'e' || c = 'E') &&
    (match r with
     | d :: r2 => if d = '+' || d = '-' then decDigitsNE r2 else decDigitsNE (d :: r2)
     | [] => false)

/-- After the integer digits of a decimal literal: an optional fraction
('.' and optional digits) followed by an optional exponent. -/
def fracThenExp (l : List Char) : Bool :=
  match l with
  | c :: r => if c = '.' then expOk (r.dropWhile Char.isDigit) else expOk (c :: r)
  | [] => true

/-- The characters of the literal Infinity. -/
def infinityChars : List Char := ['I', 'n', 'f', 'i', 'n', 'i', 't', 'y']

/-- An ECMAScript StrUnsignedDecimalLiteral: Infinity, a leading-dot
fraction with digits, or integer digits with optional fraction and
exponent. -/
def unsignedNum (l : List Char) : Bool :=
  if l = infinityChars then true
  else match l with
    | c :: r =>
      if c = '.' then decDigitsNE (r.takeWhile Char.isDigit) && expOk (r.dropWhile Char.isDigit)
      else decDigitsNE (l.takeWhile Char.isDigit) && fracThenExp (l.dropWhile Char.isDigit)
    | [] => false

/-- An optionally signed StrUnsignedDecimalLiteral. -/
def signedOrUnsigned (l : List Char) : Bool :=
  match l with
  | c :: r => if c = '+' || c = '-' then unsignedNum r else unsignedNum (c :: r)
  | [] => false

/-- An ECMAScript StrNumericLiteral: a 0x/0o/0b radix literal or a signed
decimal literal. -/
def strNumericLiteral (l : List Char) : Bool :=
  match l with
  | c :: x :: r =>
    if c = '0' && (x = 'x' || x = 'X') then hexDigitsNE r
    else if c = '0' && (x = 'o' || x = 'O') then octDigitsNE r
    else if c = '0' && (x = 'b' || x = 'B') then binDigitsNE r
    else signedOrUnsigned (c :: x :: r)
  | _ => signedOrUnsigned l

/-- Whether the JavaScript expression isNaN(Number(s)) is true: after
trimming, an empty string converts to 0 (not NaN), and otherwise the
conversion is NaN exactly when the trimmed text is not a numeric
literal. -/
def jsNumberIsNaN (s : String) : Bool :=
  let l := trimJs s
  if l.isEmpty then false else !strNumericLiteral l

/-- The second validateUserId implementation (plain variant of
user-validation.ts): reject with 400 "Invalid user ID" when
isNaN(Number(req.params.id)), else next(). -/
def validateUserIdPlain : Middleware := fun req =>
  if jsNumberIsNaN req.paramsId then .error ⟨400, .err "Invalid user ID"⟩
  else .ok req

/-- JavaScript truthiness of an optional string field: present and
nonempty. -/
def truthy : Option String → Bool
  | none => false
  | some s => s != ""

/-- routes/users.ts PUT /users/:id handler body: run
UPDATE users SET username = ?, email = ? WHERE id = ?; zero affectedRows
responds 404, otherwise the updated user shape is returned. The preceding
chain guarantees paramsId is all digits and both body fields are
present. -/
def usersPutHandler (req : Req) (store : List UserRow) : Resp × List UserRow :=
  let userId := toNatDigits req.paramsId
  let username := req.username?.getD ""
  let email := req.email?.getD ""
  let affected := (store.filter (fun u => u.id == userId)).length
  let store2 := store.map (fun u =>
    if u.id == userId then { u with username := username, email := email } else u)
  if affected = 0 then (⟨404, .err "User not found"⟩, store2)
  else (⟨200, .userObj ⟨userId, username, email⟩⟩, store2)

/-- routes/users.ts PUT /users/:id: the declared chain
authenticateToken, validateUserId, validateRequiredUserData, handler. -/
def usersPutRoute (emailOk : String → Bool) (secret : String) (now : Nat)
    (req : Req) (store : List UserRow) : Resp × List UserRow :=
  runChain [authenticateToken secret now, validateUserIdZod, validateRequiredUserData emailOk]
    usersPutHandler req store

/-- routes/users.ts PATCH /users/:id handler body: reject 403 when the
authenticated id (req.user!.id) differs from the target id, build the
SET clause from the truthy fields, reject 400 when it is empty, else run
the UPDATE (404 on zero affectedRows). -/
def usersPatchHandler (req : Req) (store : List UserRow) : Resp × List UserRow :=
  let userId := toNatDigits req.paramsId
  let authId := req.user?.getD 0
  if authId != userId then
    (⟨403, .err "Forbidden: You can only update your own profile"⟩, store)
  else
    let nFields := (if truthy req.username? then 1 else 0) + (if truthy req.email? then 1 else 0)
    if nFields = 0 then (⟨400, .err "No valid fields to update"⟩, store)
    else
      let affected := (store.filter (fun u => u.id == userId)).length
      let store2 := store.map (fun u =>
        if u.id == userId then
          { u with
            username := if truthy req.username? then req.username?.getD u.username else u.username,
            email := if truthy req.email? then req.email?.getD u.email else u.email }
        else u)
      if affected = 0 then (⟨404, .err "User not found"⟩, store2)
      else (⟨200, .userPatched userId req.username? req.email?⟩, store2)

/-- routes/users.ts PATCH /users/:id: the declared chain
authenticateToken, validateUserId, validatePartialUserData, handler. -/
def usersPatchRoute (emailOk : String → Bool) (secret : String) (now : Nat)
    (req : Req) (store : List UserRow) : Resp × List UserRow :=
  runChain [authenticateToken secret now, validateUserIdZod, validatePartialUserData emailOk]
    usersPatchHandler req store

/-- The comparison MySQL performs between the string route parameter
bound into WHERE id = ? and the integer id column, modelled on canonical
decimal strings: the parameter is all digits and reads as exactly that
number. -/
def sqlIdMatch (s : String) (n : Nat) : Bool :=
  matchesIdRegex s && toNatDigits s == n

/-- routes/articles.ts PUT /articles/:id handler body: 401 when req.user
is absent or its id is falsy, 400 when title or body is falsy, else run
UPDATE articles SET title = ?, body = ? WHERE id = ? AND submitted_by = ?
(zero affectedRows responds 404 "Article not found or unauthorized"). -/
def articlesUpdateHandler (req : Req) (store : List ArticleRow) : Resp × List ArticleRow :=
  match req.user? with
  | none => (⟨401, .err "Unauthorized"⟩, store)
  | some uid =>
    if uid = 0 then (⟨401, .err "Unauthorized"⟩, store)
    else if !truthy req.title? || !truthy req.text? then
      (⟨400, .err "Title and body are required"⟩, store)
    else
      let title := req.title?.getD ""
      let text := req.text?.getD ""
      let hit := fun a : ArticleRow => sqlIdMatch req.paramsId a.id && a.submitted_by == uid
      let affected := (store.filter hit).length
      let store2 := store.map (fun a => if hit a then { a with title := title, body := text } else a)
      if affected = 0 then (⟨404, .err "Article not found or unauthorized"⟩, store2)
      else (⟨200, .articleObj req.paramsId title text uid⟩, store2)

/-- routes/articles.ts DELETE /articles/:id handler body: 401 when
req.user is absent or its id is falsy, else run
DELETE FROM articles WHERE id = ? AND submitted_by = ? (zero affectedRows
responds 404 "Article not found or unauthorized", else 204). -/
def articlesDeleteHandler (req : Req) (store : List ArticleRow) : Resp × List ArticleRow :=
  match req.user? with
  | none => (⟨401, .err "Unauthorized"⟩, store)
  | some uid =>
    if uid = 0 then (⟨401, .err "Unauthorized"⟩, store)
    else
      let hit := fun a : ArticleRow => sqlIdMatch req.paramsId a.id && a.submitted_by == uid
      let affected := (store.filter hit).length
      let store2 := store.filter (fun a => !hit a)
      if affected = 0 then (⟨404, .err "Article not found or unauthorized"⟩, store2)
      else (⟨204, .empty⟩, store2)

/-- Modelled from the spec: src/middleware/auth-validation.ts
validateRegistration is not among the sources. registrationShape per spec
section 4.2: username 2 to 50 characters, valid email, non-empty password
of minimum length (6 per the route's swagger annotation); failure responds
400 with one message per violated field. -/
def validateRegistration (emailOk : String → Bool) : Middleware := fun req =>
  let issues :=
    (match req.username? with
     | none => ["Username is required"]
     | some u =>
       (if u.length < 2 then ["Username must be at least 2 characters"] else []) ++
       (if 50 < u.length then ["Username must not exceed 50 characters"] else [])) ++
    (match req.email? with
     | none => ["Email is required"]
     | some e => if emailOk e then [] else ["Email must be a valid email"]) ++
    (match req.password? with
     | none => ["Password is required"]
     | some p => if p.length < 6 then ["Password must be at least 6 characters"] else [])
  match issues with
  | [] => .ok req
  | issues => .error ⟨400, .errDetails "Validation failed" issues⟩

/-- AUTO_INCREMENT: the insertId MySQL assigns to a row inserted into the
users table. -/
def nextUserId (store : List UserRow) : Nat :=
  (store.map (fun u => u.id)).foldr max 0 + 1

/-- routes/auth.ts POST /auth/register handler body: select existing
users with the same email or username and answer 400 if any; otherwise
hash the password (the bcrypt hash is abstracted as the parameter
hashFn), insert the row and answer 201 with the UserResponse shape. -/
def registerHandler (hashFn : String → String) (req : Req) (store : List UserRow) :
    Resp × List UserRow :=
  let username := req.username?.getD ""
  let email := req.email?.getD ""
  let password := req.password?.getD ""
  if store.any (fun u => u.email == email || u.username == username) then
    (⟨400, .err "User with this email or username already exists"⟩, store)
  else
    let newId := nextUserId store
    (⟨201, .registered "User registered successfully" ⟨newId, username, email⟩⟩,
      store ++ [⟨newId, username, email, hashFn password⟩])

/-- routes/auth.ts POST /auth/register: validateRegistration then the
handler. -/
def registerRoute (emailOk : String → Bool) (hashFn : String → String)
    (req : Req) (store : List UserRow) : Resp × List UserRow :=
  runChain [validateRegistration emailOk] (registerHandler hashFn) req store

/-- routes/auth.ts POST /auth/login handler body: select the user by
email; an empty result answers 401 "Invalid email or password"; a failing
bcrypt.compare (abstracted as the parameter compare) answers the same
401; otherwise 200 with the user shape and a fresh token. Reads only;
never mutates the store. -/
def loginHandler (compare : String → String → Bool) (secret : String) (now : Nat)
    (req : Req) (store : List UserRow) : Resp :=
  let email := req.email?.getD ""
  let password := req.password?.getD ""
  match store.filter (fun u => u.email == email) with
  | [] => ⟨401, .err "Invalid email or password"⟩
  | user :: _ =>
    if !compare password user.password then ⟨401, .err "Invalid email or password"⟩
    else
      ⟨200, .loggedIn "Login successful" ⟨user.id, user.username, user.email⟩
        (generateToken secret user.id now)⟩

/-- routes/users.ts GET /users/:id handler body: select id, username and
email of the matching rows; an empty result answers 404, otherwise
res.json(user) serializes the selected row LIST (not its first
element). -/
def usersGetByIdHandler (req : Req) (store : List UserRow) : Resp :=
  let userId := toNatDigits req.paramsId
  let rows := (store.filter (fun u => u.id == userId)).map
    (fun u => UserResponse.mk u.id u.username u.email)
  if rows.isEmpty then ⟨404, .err "User not found"⟩
  else ⟨200, .userArr rows⟩

/-- routes/users.ts GET /users/:id: validateUserId (zod) then the
handler; the route is read-only so only the response is returned. -/
def usersGetByIdRoute (req : Req) (store : List UserRow) : Resp :=
  (runChain [validateUserIdZod] (fun r s => (usersGetByIdHandler r s, s)) req store).1

/-- Every string literal occurring in a serialized response body; used to
state that a stored password digest never appears in a response. -/
def bodyStrings : Body → List String
  | .empty => []
  | .err e => [e]
  | .errDetails e ds => e :: ds
  | .msg m => [m]
  | .userObj u => [u.username, u.email]
  | .userArr us => us.flatMap (fun u => [u.username, u.email])
  | .userPatched _ u? e? => u?.toList ++ e?.toList
  | .articleObj i t x _ => [i, t, x]
  | .registered m u => [m, u.username, u.email]
  | .loggedIn m u t => [m, u.username, u.email, t.sig.1]

/-- C2: for every token issued at issuedAt, verification fails with
Expired exactly when now exceeds issuedAt + TTL, and succeeds with the
embedded subject id at every time up to and including the expiry
boundary. -/
theorem verifyToken_expiry_boundary (secret : String) (sub iat now : Nat) :
    verifyToken secret (generateToken secret sub iat) now =
      if iat + tokenTtl < now then .error .Expired else .ok sub := by
  simp [verifyToken, generateToken]

/-- C7 counterexample: the zero-rows branch of the delete-user handler is
reachable: deleting user 1 from an empty table answers through it with
404 "User not found". -/
theorem usersDelete_zero_rows_branch_reachable :
    usersDeleteHandler { paramsId := "1" } [] = (⟨404, .err "User not found"⟩, []) := by
  decide

/-- C7 amended: in the delete-user handler the checks affectedRows > 0 and
affectedRows === 0 are exhaustive, so the 404 zero-rows branch fires
exactly when no stored user has the requested id; the dead code is the
trailing 204 response, which no execution reaches. -/
theorem usersDelete_dead_branch_is_204 (req : Req) (store : List UserRow) :
    (usersDeleteHandler req store).1.status ≠ 204 ∧
      ((usersDeleteHandler req store).1.status = 404 ↔
        store.all (fun u => !(u.id == toNatDigits req.paramsId)) = true) := by
  have key : ((store.filter (fun u => u.id == toNatDigits req.paramsId)).length = 0)
      ↔ store.all (fun u => !(u.id == toNatDigits req.paramsId)) = true := by
    rw [List.length_eq_zero, List.filter_eq_nil_iff, List.all_eq_true]
    simp
  rcases h : (store.filter (fun u => u.id == toNatDigits req.paramsId)).length with _ | n
  · have hrun : usersDeleteHandler req store =
        (⟨404, .err "User not found"⟩, store.filter (fun u => !(u.id == toNatDigits req.paramsId))) := by
      simp [usersDeleteHandler, h]
    rw [hrun]
    refine ⟨by simp, ?_⟩
    simp only [true_iff, show (404 : Nat) = 404 from rfl]
    exact key.mp h
  · have hrun : usersDeleteHandler req store =
        (⟨200, .msg "User deleted successfully"⟩, store.filter (fun u => !(u.id == toNatDigits req.paramsId))) := by
      simp [usersDeleteHandler, h]
    rw [hrun]
    refine ⟨by simp, ?_⟩
    constructor
    · intro habs
      simp at habs
    · intro hall
      have h0 := key.mpr hall
      rw [h] at h0
      simp at h0

/-- A digit character differs from any non-digit character. -/
theorem isDigit_ne {c d : Char} (hc : c.isDigit = true) (hd : d.isDigit = false) : c ≠ d := by
  intro h
  rw [h, hd] at hc
  exact Bool.noConfusion hc

/-- A digit character is not ECMAScript whitespace. -/
theorem not_ws_of_digit {c : Char} (hc : c.isDigit = true) : jsWs c = false := by
  have h1 : c ≠ '\t' := isDigit_ne hc (by decide)
  have h2 : c ≠ '\n' := isDigit_ne hc (by decide)
  have h3 : c ≠ Char.ofNat 11 := isDigit_ne hc (by decide)
  have h4 : c ≠ Char.ofNat 12 := isDigit_ne hc (by decide)
  have h5 : c ≠ '\r' := isDigit_ne hc (by decide)
  have h6 : c ≠ ' ' := isDigit_ne hc (by decide)
  have h7 : c ≠ Char.ofNat 160 := isDigit_ne hc (by decide)
  have h8 : c ≠ Char.ofNat 0x2028 := isDigit_ne hc (by decide)
  have h9 : c ≠ Char.ofNat 0x2029 := isDigit_ne hc (by decide)
  have h10 : c ≠ Char.ofNat 0xFEFF := isDigit_ne hc (by decide)
  simp [jsWs, h1, h2, h3, h4, h5, h6, h7, h8, h9, h10]

/-- takeWhile isDigit keeps an all-digit list whole. -/
theorem takeWhile_digits {l : List Char} (h : l.all Char.isDigit = true) :
    l.takeWhile Char.isDigit = l := by
  induction l with
  | nil => rfl
  | cons c r ih =>
    simp only [List.all_cons, Bool.and_eq_true] at h
    simp [List.takeWhile_cons, h.1, ih h.2]

/-- dropWhile isDigit empties an all-digit list. -/
theorem dropWhile_digits {l : List Char} (h : l.all Char.isDigit = true) :
    l.dropWhile Char.isDigit = [] := by
  induction l with
  | nil => rfl
  | cons c r ih =>
    simp only [List.all_cons, Bool.and_eq_true] at h
    simp [List.dropWhile_cons, h.1, ih h.2]

/-- dropWhile jsWs leaves an all-digit list untouched. -/
theorem dropWhile_ws_digits {l : List Char} (h : l.all Char.isDigit = true) :
    l.dropWhile jsWs = l := by
  cases l with
  | nil => rfl
  | cons c r =>
    simp only [List.all_cons, Bool.and_eq_true] at h
    simp [List.dropWhile_cons, not_ws_of_digit h.1]

/-- Trimming JavaScript whitespace leaves an all-digit string untouched. -/
theorem trimJs_digits {s : String} (h : s.toList.all Char.isDigit = true) :
    trimJs s = s.toList := by
  unfold trimJs
  rw [dropWhile_ws_digits h, dropWhile_ws_digits (by simpa using h), List.reverse_reverse]

/-- A nonempty all-digit character list is an ECMAScript
StrUnsignedDecimalLiteral. -/
theorem unsignedNum_digits {l : List Char} (hne : l ≠ []) (h : l.all Char.isDigit = true) :
    unsignedNum l = true := by
  cases l with
  | nil => exact absurd rfl hne
  | cons c r =>
    simp only [List.all_cons, Bool.and_eq_true] at h
    obtain ⟨hc, hr⟩ := h
    have hinf : (c :: r) ≠ infinityChars := by
      intro heq
      have : c = 'I' := by
        have := congrArg (fun x => x.headD ' ') heq
        simpa [infinityChars] using this
      exact isDigit_ne hc (by decide) this
    have hdot : c ≠ '.' := isDigit_ne hc (by decide)
    unfold unsignedNum
    rw [if_neg hinf]
    simp only [hdot, decide_False, Bool.false_eq_true, if_false]
    rw [takeWhile_digits (by simp [hc, hr]), dropWhile_digits (by simp [hc, hr])]
    simp [decDigitsNE, fracThenExp, hc, hr]

/-- A nonempty all-digit character list is an ECMAScript
StrNumericLiteral. -/
theorem strNumericLiteral_digits {l : List Char} (hne : l ≠ []) (h : l.all Char.isDigit = true) :
    strNumericLiteral l = true := by
  cases l with
  | nil => exact absurd rfl hne
  | cons c t =>
    simp only [List.all_cons, Bool.and_eq_true] at h
    obtain ⟨hc, ht⟩ := h
    have hplus : c ≠ '+' := isDigit_ne hc (by decide)
    have hminus : c ≠ '-' := isDigit_ne hc (by decide)
    cases t with
    | nil =>
      show signedOrUnsigned [c] = true
      simp only [signedOrUnsigned, hplus, hminus, decide_False, Bool.or_self,
        Bool.false_eq_true, if_false]
      exact unsignedNum_digits (by simp) (by simp [hc])
    | cons x r =>
      simp only [List.all_cons, Bool.and_eq_true] at ht
      obtain ⟨hx, hr⟩ := ht
      have nx1 : x ≠ 'x' := isDigit_ne hx (by decide)
      have nx2 : x ≠ 'X' := isDigit_ne hx (by decide)
      have nx3 : x ≠ 'o' := isDigit_ne hx (by decide)
      have nx4 : x ≠ 'O' := isDigit_ne hx (by decide)
      have nx5 : x ≠ 'b' := isDigit_ne hx (by decide)
      have nx6 : x ≠ 'B' := isDigit_ne hx (by decide)
      simp only [strNumericLiteral, nx1, nx2, nx3, nx4, nx5, nx6, decide_False,
        Bool.or_self, Bool.and_false, Bool.false_eq_true, if_false]
      simp only [signedOrUnsigned, hplus, hminus, decide_False, Bool.or_self,
        Bool.false_eq_true, if_false]
      exact unsignedNum_digits (by simp) (by simp [hc, hx, hr])

/-- A string the id regex accepts converts to a number, never to NaN. -/
theorem jsNumberIsNaN_digits {s : String} (h : matchesIdRegex s = true) :
    jsNumberIsNaN s = false := by
  unfold matchesIdRegex at h
  simp only [Bool.and_eq_true, Bool.not_eq_true'] at h
  obtain ⟨hne, hall⟩ := h
  have hne' : s.toList ≠ [] := by
    intro habs
    rw [habs] at hne
    exact Bool.noConfusion hne
  unfold jsNumberIsNaN
  rw [trimJs_digits hall]
  simp only [hne, Bool.false_eq_true, if_false]
  rw [strNumericLiteral_digits hne' hall]
  rfl

/-- C6 counterexample: the two validateUserId implementations are not
equivalent: the empty id and the id 1.5 are rejected by the zod regex
validator but accepted (passed to next()) by the Number-based one. -/
theorem validateUserId_variants_differ_on_empty :
    validateUserIdZod { paramsId := "" } =
      .error ⟨404, .errDetails "Validation failed" ["ID must be a positive number"]⟩ ∧
    validateUserIdPlain { paramsId := "" } = .ok { paramsId := "" } ∧
    validateUserIdZod { paramsId := "1.5" } =
      .error ⟨404, .errDetails "Validation failed" ["ID must be a positive number"]⟩ ∧
    validateUserIdPlain { paramsId := "1.5" } = .ok { paramsId := "1.5" } := by
  refine ⟨by decide, by decide, by decide, by decide⟩

/-- C6 amended: the two validateUserId implementations are not equivalent:
every id the zod regex accepts is also accepted by the Number-based
validator, but not conversely (empty, signed, fractional, exponent and
radix forms pass only the latter); they do differ in failure status code,
404 for the zod variant and 400 for the Number-based one. -/
theorem validateUserId_zod_subset_plain (req : Req) :
    (matchesIdRegex req.paramsId = true → validateUserIdPlain req = .ok req) ∧
    (∀ r, validateUserIdZod req = .error r → r.status = 404) ∧
    (∀ r, validateUserIdPlain req = .error r → r.status = 400) := by
  refine ⟨?_, ?_, ?_⟩
  · intro h
    unfold validateUserIdPlain
    rw [jsNumberIsNaN_digits h]
    rfl
  · intro r hr
    unfold validateUserIdZod at hr
    split at hr
    · exact Except.noConfusion hr
    · cases hr
      rfl
  · intro r hr
    unfold validateUserIdPlain at hr
    split at hr
    · cases hr
      rfl
    · exact Except.noConfusion hr

/-- C6 witness: the subset direction and the two failure status codes at
concrete inputs. -/
theorem validateUserId_zod_subset_plain_witness :
    validateUserIdPlain { paramsId := "5" } = .ok { paramsId := "5" } ∧
    (⟨404, .errDetails "Validation failed" ["ID must be a positive number"]⟩ : Resp).status = 404 ∧
    (⟨400, .err "Invalid user ID"⟩ : Resp).status = 400 :=
  ⟨(validateUserId_zod_subset_plain { paramsId := "5" }).1 (by decide),
   (validateUserId_zod_subset_plain { paramsId := "abc" }).2.1
     ⟨404, .errDetails "Validation failed" ["ID must be a positive number"]⟩ (by decide),
   (validateUserId_zod_subset_plain { paramsId := "abc" }).2.2
     ⟨400, .err "Invalid user ID"⟩ (by decide)⟩

/-- C5 counterexample: in the users PUT route the auth middleware runs
before the validation pipeline: a request that is both shape-invalid
(id "abc") and unauthenticated (no bearer token) receives the 401, not
the validation-failure response. -/
theorem auth_runs_before_validation_cex :
    usersPutRoute (fun _ => true) "s" 0 { paramsId := "abc" } [] =
      (⟨401, .err "Unauthorized"⟩, []) ∧
    (⟨401, .err "Unauthorized"⟩ : Resp) ≠
      ⟨404, .errDetails "Validation failed" ["ID must be a positive number"]⟩ := by
  exact ⟨rfl, by decide⟩

/-- C5 amended: for the users routes that declare both, authentication
runs first and validation only afterwards: any request without an
authorization header is answered 401 "Unauthorized" by the PUT and PATCH
routes regardless of its shape, with the store untouched. -/
theorem auth_before_validation
    (emailOk : String → Bool) (secret : String) (now : Nat) (req : Req)
    (store : List UserRow) (h : req.authHeader = none) :
    usersPutRoute emailOk secret now req store = (⟨401, .err "Unauthorized"⟩, store) ∧
    usersPatchRoute emailOk secret now req store = (⟨401, .err "Unauthorized"⟩, store) := by
  have ha : authenticateToken secret now req = .error ⟨401, .err "Unauthorized"⟩ := by
    unfold authenticateToken
    rw [h]
  constructor
  · simp only [usersPutRoute, runChain, ha]
  · simp only [usersPatchRoute, runChain, ha]

/-- C5 witness: a shape-invalid unauthenticated request to PUT and PATCH
gets the 401. -/
theorem auth_before_validation_witness :
    usersPutRoute (fun _ => true) "s" 7 { paramsId := "abc" } [] =
      (⟨401, .err "Unauthorized"⟩, []) ∧
    usersPatchRoute (fun _ => true) "s" 7 { paramsId := "abc" } [] =
      (⟨401, .err "Unauthorized"⟩, []) :=
  auth_before_validation (fun _ => true) "s" 7 { paramsId := "abc" } [] rfl

/-- C4: in the users PUT chain a failing validator halts the request: the
response is exactly the failing validator's own (never a later
validator's messages), the handler does not run and the store is left
untouched. -/
theorem usersPut_chain_short_circuit
    (emailOk : String → Bool) (secret : String) (now : Nat) (req req2 : Req)
    (store : List UserRow) (r : Resp) :
    (authenticateToken secret now req = .ok req2 →
      validateUserIdZod req2 = .error r →
      usersPutRoute emailOk secret now req store = (r, store)) ∧
    (authenticateToken secret now req = .ok req2 →
      validateUserIdZod req2 = .ok req2 →
      validateRequiredUserData emailOk req2 = .error r →
      usersPutRoute emailOk secret now req store = (r, store)) := by
  constructor
  · intro h1 h2
    simp only [usersPutRoute, runChain, h1, h2]
  · intro h1 h2 h3
    simp only [usersPutRoute, runChain, h1, h2, h3]

/-- C4 witness: with a valid token, an invalid id yields exactly the id
validator's 404 message set, and a valid id with a too-short username
yields exactly the required-data validator's 400 message set; the store
is untouched in both runs. -/
theorem usersPut_chain_short_circuit_witness :
    usersPutRoute (fun _ => true) "s" 10
      { paramsId := "abc", authHeader := some (.token (generateToken "s" 7 0)) } [] =
      (⟨404, .errDetails "Validation failed" ["ID must be a positive number"]⟩, []) ∧
    usersPutRoute (fun _ => true) "s" 10
      { paramsId := "7", username? := some "a", email? := some "x@y.z",
        authHeader := some (.token (generateToken "s" 7 0)) } [] =
      (⟨400, .errDetails "Validation failed" ["Username must be at least 2 characters"]⟩, []) :=
  ⟨(usersPut_chain_short_circuit (fun _ => true) "s" 10
      { paramsId := "abc", authHeader := some (.token (generateToken "s" 7 0)) }
      { paramsId := "abc", authHeader := some (.token (generateToken "s" 7 0)),
        user? := some 7 } []
      ⟨404, .errDetails "Validation failed" ["ID must be a positive number"]⟩).1
      (by decide) (by decide),
   (usersPut_chain_short_circuit (fun _ => true) "s" 10
      { paramsId := "7", username? := some "a", email? := some "x@y.z",
        authHeader := some (.token (generateToken "s" 7 0)) }
      { paramsId := "7", username? := some "a", email? := some "x@y.z",
        authHeader := some (.token (generateToken "s" 7 0)), user? := some 7 } []
      ⟨400, .errDetails "Validation failed" ["Username must be at least 2 characters"]⟩).2
      (by decide) (by decide) (by decide)⟩

/-- C1 counterexample: PATCH /users/2 by authenticated user 1 carrying a
valid token answers 403 Forbidden, not the 404 the claim states, when the
authenticated id differs from the target user id. -/
theorem usersPatch_nonowner_responds_403 :
    usersPatchRoute (fun _ => true) "secret" 10
      { paramsId := "2", username? := some "bob",
        authHeader := some (.token (generateToken "secret" 1 0)) }
      [⟨2, "eve", "e@x.y", "digest2"⟩] =
      (⟨403, .err "Forbidden: You can only update your own profile"⟩,
        [⟨2, "eve", "e@x.y", "digest2"⟩]) := by
  decide

/-- C1 amended: when the authenticated id differs from the stored owner,
the article update and delete handlers answer 404
"Article not found or unauthorized" and leave the table unchanged, but
the users PATCH handler instead answers 403 Forbidden (also without
mutation); the users DELETE handler performs no ownership comparison at
all. -/
theorem ownership_mismatch_articles_404_users_patch_403
    (reqA reqU : Req) (storeA : List ArticleRow) (storeU : List UserRow) (uid : Nat) :
    (reqA.user? = some uid → uid ≠ 0 →
      (∀ a ∈ storeA, sqlIdMatch reqA.paramsId a.id = true → a.submitted_by ≠ uid) →
      articlesDeleteHandler reqA storeA =
        (⟨404, .err "Article not found or unauthorized"⟩, storeA)) ∧
    (reqA.user? = some uid → uid ≠ 0 → truthy reqA.title? = true → truthy reqA.text? = true →
      (∀ a ∈ storeA, sqlIdMatch reqA.paramsId a.id = true → a.submitted_by ≠ uid) →
      articlesUpdateHandler reqA storeA =
        (⟨404, .err "Article not found or unauthorized"⟩, storeA)) ∧
    (reqU.user? = some uid → uid ≠ toNatDigits reqU.paramsId →
      usersPatchHandler reqU storeU =
        (⟨403, .err "Forbidden: You can only update your own profile"⟩, storeU)) := by
  have hmiss : ∀ (hno : ∀ a ∈ storeA, sqlIdMatch reqA.paramsId a.id = true → a.submitted_by ≠ uid)
      (a : ArticleRow), a ∈ storeA →
      (sqlIdMatch reqA.paramsId a.id && a.submitted_by == uid) = false := by
    intro hno a ha
    rcases hsql : sqlIdMatch reqA.paramsId a.id with _ | _
    · simp
    · simp only [Bool.true_and, beq_eq_false_iff_ne, ne_eq]
      exact hno a ha hsql
  refine ⟨?_, ?_, ?_⟩
  · intro hu h0 hno
    simp only [articlesDeleteHandler, hu]
    rw [if_neg h0]
    have hfil : storeA.filter
        (fun a => sqlIdMatch reqA.paramsId a.id && a.submitted_by == uid) = [] :=
      List.filter_eq_nil_iff.mpr (fun a ha => by simp [hmiss hno a ha])
    have hkeep : storeA.filter
        (fun a => !(sqlIdMatch reqA.paramsId a.id && a.submitted_by == uid)) = storeA :=
      List.filter_eq_self.mpr (fun a ha => by simp [hmiss hno a ha])
    simp only [hfil, hkeep, List.length_nil]
    rfl
  · intro hu h0 hti hte hno
    simp only [articlesUpdateHandler, hu]
    rw [if_neg h0]
    rw [hti, hte]
    simp only [Bool.not_true, Bool.or_self, Bool.false_eq_true, if_false]
    have hfil : storeA.filter
        (fun a => sqlIdMatch reqA.paramsId a.id && a.submitted_by == uid) = [] :=
      List.filter_eq_nil_iff.mpr (fun a ha => by simp [hmiss hno a ha])
    have hmap : storeA.map (fun a =>
        if sqlIdMatch reqA.paramsId a.id && a.submitted_by == uid then
          { a with title := reqA.title?.getD "", body := reqA.text?.getD "" }
        else a) = storeA := by
      have hid : ∀ a ∈ storeA,
          (if sqlIdMatch reqA.paramsId a.id && a.submitted_by == uid then
            { a with title := reqA.title?.getD "", body := reqA.text?.getD "" }
          else a) = id a := by
        intro a ha
        rw [if_neg (by simp [hmiss hno a ha])]
        rfl
      rw [List.map_congr_left hid, List.map_id]
    simp only [hfil, hmap, List.length_nil]
    rfl
  · intro hu hne
    simp only [usersPatchHandler, hu, Option.getD_some]
    rw [if_pos (by simpa using hne)]

/-- C1 witness: user 1 attempting to delete or update article 5 owned by
user 2 gets 404 with the table unchanged, and user 1 patching user 2 gets
403 with the table unchanged. -/
theorem ownership_mismatch_witness :
    articlesDeleteHandler { paramsId := "5", user? := some 1 }
      [⟨5, "old title", "old text", 2, none⟩] =
      (⟨404, .err "Article not found or unauthorized"⟩,
        [⟨5, "old title", "old text", 2, none⟩]) ∧
    articlesUpdateHandler
      { paramsId := "5", title? := some "T", text? := some "B", user? := some 1 }
      [⟨5, "old title", "old text", 2, none⟩] =
      (⟨404, .err "Article not found or unauthorized"⟩,
        [⟨5, "old title", "old text", 2, none⟩]) ∧
    usersPatchHandler { paramsId := "2", user? := some 1 } [⟨2, "eve", "e@x.y", "digest2"⟩] =
      (⟨403, .err "Forbidden: You can only update your own profile"⟩,
        [⟨2, "eve", "e@x.y", "digest2"⟩]) :=
  ⟨(ownership_mismatch_articles_404_users_patch_403
      { paramsId := "5", user? := some 1 } { paramsId := "2", user? := some 1 }
      [⟨5, "old title", "old text", 2, none⟩] [⟨2, "eve", "e@x.y", "digest2"⟩] 1).1
      rfl (by decide) (by decide),
   (ownership_mismatch_articles_404_users_patch_403
      { paramsId := "5", title? := some "T", text? := some "B", user? := some 1 }
      { paramsId := "2", user? := some 1 }
      [⟨5, "old title", "old text", 2, none⟩] [⟨2, "eve", "e@x.y", "digest2"⟩] 1).2.1
      rfl (by decide) (by decide) (by decide) (by decide),
   (ownership_mismatch_articles_404_users_patch_403
      { paramsId := "5", user? := some 1 } { paramsId := "2", user? := some 1 }
      [⟨5, "old title", "old text", 2, none⟩] [⟨2, "eve", "e@x.y", "digest2"⟩] 1).2.2
      rfl (by decide)⟩

/-- C3 counterexample: the zod partial-update validator does not fail on a
body with neither username nor email: both fields are optional, safeParse
succeeds on the empty body and the middleware calls next(). -/
theorem partialUserData_empty_body_passes_validation :
    validatePartialUserData (fun _ => true) { paramsId := "1" } =
      .ok { paramsId := "1" } := rfl

/-- C3 amended: a partial-update body with neither field set passes the
zod validator unchanged; the no-fields-to-update 400 is produced by the
PATCH route handler itself ("No valid fields to update"), which returns
before the UPDATE statement, so the store is not mutated. -/
theorem patch_empty_body_handler_400_no_mutation
    (emailOk : String → Bool) (secret : String) (now : Nat) (req req2 : Req)
    (store : List UserRow)
    (hu : req2.username? = none) (he : req2.email? = none)
    (hauth : authenticateToken secret now req = .ok req2)
    (hid : matchesIdRegex req2.paramsId = true)
    (hown : req2.user? = some (toNatDigits req2.paramsId)) :
    validatePartialUserData emailOk req2 = .ok req2 ∧
    usersPatchRoute emailOk secret now req store =
      (⟨400, .err "No valid fields to update"⟩, store) := by
  have hval : validatePartialUserData emailOk req2 = .ok req2 := by
    unfold validatePartialUserData usernameIssuesOpt emailIssuesOpt
    rw [hu, he]
    rfl
  refine ⟨hval, ?_⟩
  have hidv : validateUserIdZod req2 = .ok req2 := by
    unfold validateUserIdZod
    rw [hid]
    rfl
  have hhandler : usersPatchHandler req2 store =
      (⟨400, .err "No valid fields to update"⟩, store) := by
    unfold usersPatchHandler
    rw [hown, hu, he]
    simp [truthy]
  simp only [usersPatchRoute, runChain, hauth, hidv, hval, hhandler]

/-- C3 witness: user 7 patching their own record with an empty body:
validation passes and the route answers 400 without touching the store. -/
theorem patch_empty_body_witness :
    validatePartialUserData (fun _ => true)
      { paramsId := "7", authHeader := some (.token (generateToken "s" 7 0)), user? := some 7 } =
      .ok
        { paramsId := "7", authHeader := some (.token (generateToken "s" 7 0)), user? := some 7 } ∧
    usersPatchRoute (fun _ => true) "s" 10
      { paramsId := "7", authHeader := some (.token (generateToken "s" 7 0)) }
      [⟨7, "greg", "g@x.y", "digest7"⟩] =
      (⟨400, .err "No valid fields to update"⟩, [⟨7, "greg", "g@x.y", "digest7"⟩]) :=
  patch_empty_body_handler_400_no_mutation (fun _ => true) "s" 10
    { paramsId := "7", authHeader := some (.token (generateToken "s" 7 0)) }
    { paramsId := "7", authHeader := some (.token (generateToken "s" 7 0)), user? := some 7 }
    [⟨7, "greg", "g@x.y", "digest7"⟩] rfl rfl (by decide) (by decide) (by decide)

/-- C8: on a store containing user 1 with a stored password digest,
GET /users/1 succeeds with a one-element JSON array of the selected
columns --- not the single user object its swagger documents --- and the
digest string appears nowhere in the response body. -/
theorem usersGetById_array_without_password :
    usersGetByIdRoute { paramsId := "1" } [⟨1, "alice", "a@b.c", "digest-xyz"⟩] =
      ⟨200, .userArr [⟨1, "alice", "a@b.c"⟩]⟩ ∧
    "digest-xyz" ∉ bodyStrings (.userArr [⟨1, "alice", "a@b.c"⟩]) ∧
    ∀ u : UserResponse, Body.userArr [⟨1, "alice", "a@b.c"⟩] ≠ .userObj u := by
  refine ⟨by decide, by decide, ?_⟩
  intro u h
  exact Body.noConfusion h

/-- C9: a shape-valid registration whose email or username already belongs
to a stored user answers 400 "User with this email or username already
exists" and inserts no row: the store is returned unchanged. -/
theorem register_duplicate_400_no_insert
    (emailOk : String → Bool) (hashFn : String → String) (req : Req) (store : List UserRow)
    (hok : validateRegistration emailOk req = .ok req)
    (hdup : store.any (fun u =>
      u.email == req.email?.getD "" || u.username == req.username?.getD "") = true) :
    registerRoute emailOk hashFn req store =
      (⟨400, .err "User with this email or username already exists"⟩, store) := by
  have hh : registerHandler hashFn req store =
      (⟨400, .err "User with this email or username already exists"⟩, store) := by
    simp only [registerHandler, hdup, if_true]
  simp only [registerRoute, runChain, hok, hh]

/-- C9 witness: registering "alicia" with the already-stored email a@b.c
answers the duplicate 400 and leaves the single stored row alone. -/
theorem register_duplicate_witness :
    registerRoute (fun _ => true) (fun p => p)
      { username? := some "alicia", email? := some "a@b.c", password? := some "123456" }
      [⟨1, "alice", "a@b.c", "stored-digest"⟩] =
      (⟨400, .err "User with this email or username already exists"⟩,
        [⟨1, "alice", "a@b.c", "stored-digest"⟩]) :=
  register_duplicate_400_no_insert (fun _ => true) (fun p => p)
    { username? := some "alicia", email? := some "a@b.c", password? := some "123456" }
    [⟨1, "alice", "a@b.c", "stored-digest"⟩] (by decide) (by decide)

/-- C10: the login handler answers the same 401
"Invalid email or password" for an unknown email and for a known email
with a failing password comparison, so the response does not reveal
whether an account with the given email exists. -/
theorem login_indistinguishable_401
    (compare : String → String → Bool) (secret : String) (now : Nat)
    (reqA reqB : Req) (store : List UserRow) (user : UserRow) (rest : List UserRow)
    (hA : store.filter (fun u => u.email == reqA.email?.getD "") = [])
    (hB : store.filter (fun u => u.email == reqB.email?.getD "") = user :: rest)
    (hpw : compare (reqB.password?.getD "") user.password = false) :
    loginHandler compare secret now reqA store = ⟨401, .err "Invalid email or password"⟩ ∧
    loginHandler compare secret now reqB store = ⟨401, .err "Invalid email or password"⟩ ∧
    loginHandler compare secret now reqA store = loginHandler compare secret now reqB store := by
  have h1 : loginHandler compare secret now reqA store =
      ⟨401, .err "Invalid email or password"⟩ := by
    simp only [loginHandler, hA]
  have h2 : loginHandler compare secret now reqB store =
      ⟨401, .err "Invalid email or password"⟩ := by
    simp [loginHandler, hB, hpw]
  exact ⟨h1, h2, h1.trans h2.symm⟩

/-- C10 witness: with bcrypt.compare modelled as string equality, an
unknown email and a wrong password for the stored user produce the
identical 401 response. -/
theorem login_indistinguishable_witness :
    loginHandler (fun p d => p == d) "s" 0
      { email? := some "ghost@x.y", password? := some "z" }
      [⟨1, "alice", "a@b.c", "pw"⟩] = ⟨401, .err "Invalid email or password"⟩ ∧
    loginHandler (fun p d => p == d) "s" 0
      { email? := some "a@b.c", password? := some "wrong" }
      [⟨1, "alice", "a@b.c", "pw"⟩] = ⟨401, .err "Invalid email or password"⟩ ∧
    loginHandler (fun p d => p == d) "s" 0
      { email? := some "ghost@x.y", password? := some "z" }
      [⟨1, "alice", "a@b.c", "pw"⟩] =
    loginHandler (fun p d => p == d) "s" 0
      { email? := some "a@b.c", password? := some "wrong" }
      [⟨1, "alice", "a@b.c", "pw"⟩] :=
  login_indistinguishable_401 (fun p d => p == d) "s" 0
    { email? := some "ghost@x.y", password? := some "z" }
    { email? := some "a@b.c", password? := some "wrong" }
    [⟨1, "alice", "a@b.c", "pw"⟩] ⟨1, "alice", "a@b.c", "pw"⟩ []
    (by decide) (by decide) (by decide)
